import Mathlib

/-!
Verification development for `usb_refresher.py`.

The script is embedded shallowly: every pure parsing function is translated
directly; child-process executions are modelled by oracle inputs (exit codes
and captured output, the output given as its list of lines, i.e. the result
of Python `splitlines()`); the orchestrator `main` is a function from such an
oracle environment to its exit code together with the trace of the externally
visible operations it performed.

The Python string primitives (`strip`, `split`, `lower`, `startswith`,
substring containment, `split(":", 1)` and the two `re.search` patterns) are
implemented here by structural recursion on the character list of the
string, so that every definition evaluates by kernel reduction.
-/

namespace UsbRefresher

/-! ### String primitives (Python `str` methods, on ASCII data) -/

/-- Python `line.strip()`: remove leading and trailing whitespace. -/
def trimChars (cs : List Char) : List Char :=
  ((cs.dropWhile Char.isWhitespace).reverse.dropWhile Char.isWhitespace).reverse

/-- Python `line.strip()` on strings. -/
def strTrim (s : String) : String :=
  String.mk (trimChars s.data)

/-- Python `str.lower()` (ASCII case folding, which is all the script's
inputs use). -/
def lowerStr (s : String) : String :=
  String.mk (s.data.map Char.toLower)

/-- Tokenizer behind Python `line.split()` (no argument): maximal runs of
non-whitespace characters; `cur` holds the current token reversed. -/
def splitWsAux : List Char → List Char → List (List Char)
  | [], cur => if cur.isEmpty then [] else [cur.reverse]
  | c :: rest, cur =>
    if Char.isWhitespace c then
      if cur.isEmpty then splitWsAux rest []
      else cur.reverse :: splitWsAux rest []
    else splitWsAux rest (c :: cur)

/-- Python `line.split()`: whitespace-separated tokens, empties dropped. -/
def splitWs (line : String) : List String :=
  (splitWsAux line.data []).map String.mk

/-- Does `needle` occur at the front of `hay`? -/
def startsWithChars : List Char → List Char → Bool
  | [], _ => true
  | _ :: _, [] => false
  | n :: ns, h :: hs => n = h && startsWithChars ns hs

/-- Python `s.startswith(pre)`. -/
def strStartsWith (s pre : String) : Bool :=
  startsWithChars pre.data s.data

/-- Does `needle` occur anywhere in `hay`? -/
def containsChars (needle : List Char) : List Char → Bool
  | [] => needle.isEmpty
  | h :: hs => startsWithChars needle (h :: hs) || containsChars needle hs

/-- Python substring containment `needle in hay` on strings. -/
def strContainsSub (hay needle : String) : Bool :=
  containsChars needle.data hay.data

/-- Break a character list at its first colon: `none` when there is no colon
(Python `":" in line` is false), otherwise the parts before and after it
(Python `line.split(":", 1)`). `acc` holds the scanned part reversed. -/
def breakColonAux : List Char → List Char → Option (List Char × List Char)
  | _, [] => none
  | acc, c :: rest =>
    if c = ':' then some (acc.reverse, rest) else breakColonAux (c :: acc) rest

/-- Python `line.split(":", 1)` guarded by `":" in line`. -/
def splitFirstColon (s : String) : Option (String × String) :=
  (breakColonAux [] s.data).map (fun p => (String.mk p.1, String.mk p.2))

/-! ### Constants and data of the script -/

/-- Result of one child-process execution as captured by `subprocess.run`:
exit code, stdout (as its list of lines, i.e. `stdout.splitlines()`) and
stderr. -/
structure CompletedProcess where
  returncode : Int
  stdoutLines : List String
  stderr : String
deriving DecidableEq, Repr

/-- Constant `ADB_HEALTHY_STATE` from the script. -/
def ADB_HEALTHY_STATE : String := "device"

/-- Constant `ADB_SOFT_RESET_COMMANDS` from the script. -/
def ADB_SOFT_RESET_COMMANDS : List (List String) :=
  [["kill-server"], ["start-server"], ["reconnect"]]

/-- Constant `ANDROID_DEVICE_NAME` from the script. -/
def ANDROID_DEVICE_NAME : String := "Android Composite ADB Interface"

/-- Constant `COMMON_ANDROID_VIDS` from the script (a set in Python; only
membership is ever used, so a list is a faithful model). -/
def COMMON_ANDROID_VIDS : List String :=
  ["18D1", "0BB4", "12D1", "04E8", "22B8", "2A70", "0FCE", "0502", "05C6"]

/-- Python truthiness of the optional serial filter: `if serial and ...` is
taken only when the serial is present and non-empty. -/
def serialTruthy : Option String → Bool
  | none => false
  | some s => s ≠ ""

/-! ### Bridge health probing -/

/-- The record-scanning loop of `parse_adb_devices`: skip the header line,
whitespace-split each record into `(serial, state, ...)`, apply the serial
filter, and return the first surviving record's state token. -/
def parseAdbGo (serial : Option String) : List String → Option String
  | [] => none
  | line :: rest =>
    if strStartsWith (lowerStr line) "list of devices" then
      parseAdbGo serial rest
    else
      match splitWs line with
      | p0 :: p1 :: _ =>
        if serialTruthy serial && p0 ≠ serial.getD "" then parseAdbGo serial rest
        else some p1
      | _ => parseAdbGo serial rest

/-- `parse_adb_devices(output, serial)`: `output.splitlines()` is the given
line list; each line is stripped and empty lines are dropped, then the
record loop runs. -/
def parse_adb_devices (outputLines : List String) (serial : Option String) :
    Option String :=
  parseAdbGo serial ((outputLines.map strTrim).filter (fun l => l ≠ ""))

/-- `is_adb_healthy(adb_path, serial)`, with the result of the single
`adb devices` execution supplied as `res`: a failed listing or a missing
record is unhealthy; otherwise healthy iff the state token equals
`ADB_HEALTHY_STATE`. -/
def is_adb_healthy (res : CompletedProcess) (serial : Option String) : Bool :=
  if res.returncode ≠ 0 then false
  else
    match parse_adb_devices res.stdoutLines serial with
    | none => false
    | some state => decide (state = ADB_HEALTHY_STATE)

/-! ### Soft and hard reset -/

/-- `soft_reset(adb_path)`: run each command of `ADB_SOFT_RESET_COMMANDS` in
order (a non-zero exit is only logged). `run` gives each command's exit
code; the returned trace lists every command issued with its exit code. -/
def soft_reset (run : List String → Int) : List (List String × Int) :=
  ADB_SOFT_RESET_COMMANDS.map (fun args => (args, run args))

/-- Oracle for one `hard_reset` call: the exit codes the two devcon commands
would return if issued. -/
structure HardEnv where
  disableCode : Int
  enableCode : Int
deriving DecidableEq, Repr

/-- Observable result of `hard_reset`: its boolean return value and how many
times each devcon command was issued. -/
structure HardResult where
  ok : Bool
  disableCalls : Nat
  enableCalls : Nat
deriving DecidableEq, Repr

/-- `hard_reset(devcon_path, instance_id, dry_run)`: in dry-run mode neither
command is issued and the call succeeds; otherwise disable is issued, a
non-zero exit aborts before enable, else enable is issued and decides the
result. -/
def hard_reset (dryRun : Bool) (env : HardEnv) : HardResult :=
  if dryRun then HardResult.mk true 0 0
  else if env.disableCode ≠ 0 then HardResult.mk false 1 0
  else if env.enableCode ≠ 0 then HardResult.mk false 1 1
  else HardResult.mk true 1 1

/-! ### Devcon output parsing and device location -/

/-- `parse_devcon_findall(output)`: keep the lines containing a colon and
split each at its first colon into a stripped `(instance_id, name)` pair. -/
def parse_devcon_findall (outputLines : List String) : List (String × String) :=
  outputLines.filterMap (fun line =>
    (splitFirstColon line).map (fun p => (strTrim p.1, strTrim p.2)))

/-- Character class `[0-9A-Fa-f]` of the hardware-ID pattern. -/
def isHexDigitCh (c : Char) : Bool :=
  (decide ('0' ≤ c) && decide (c ≤ '9')) ||
  (decide ('A' ≤ c) && decide (c ≤ 'F')) ||
  (decide ('a' ≤ c) && decide (c ≤ 'f'))

/-- Character class `[0-9A-F]` of the vendor-ID pattern. -/
def isUpperHexCh (c : Char) : Bool :=
  (decide ('0' ≤ c) && decide (c ≤ '9')) ||
  (decide ('A' ≤ c) && decide (c ≤ 'F'))

/-- Match a literal character sequence at the front of the input, returning
the remaining input on success. -/
def takeLit : List Char → List Char → Option (List Char)
  | [], cs => some cs
  | _ :: _, [] => none
  | l :: ls, c :: cs => if c = l then takeLit ls cs else none

/-- Match exactly four characters of the given class at the front of the
input, returning them and the remaining input. -/
def takeHex4 (hex : Char → Bool) : List Char → Option (List Char × List Char)
  | a :: b :: c :: d :: rest =>
    if hex a && hex b && hex c && hex d then some ([a, b, c, d], rest)
    else none
  | _ => none

/-- Match `USB\VID_[0-9A-Fa-f]{4}&PID_[0-9A-Fa-f]{4}` anchored at the front
of the input, returning the matched characters. -/
def matchHwidAt (cs : List Char) : Option (List Char) :=
  (takeLit "USB\\VID_".data cs).bind (fun r1 =>
    (takeHex4 isHexDigitCh r1).bind (fun p1 =>
      (takeLit "&PID_".data p1.2).bind (fun r2 =>
        (takeHex4 isHexDigitCh r2).map (fun p2 =>
          "USB\\VID_".data ++ p1.1 ++ "&PID_".data ++ p2.1))))

/-- `re.search` for the hardware-ID pattern: leftmost match, scanning left to
right (the pattern is of fixed shape, so leftmost search is a plain scan). -/
def searchHwid : List Char → Option (List Char)
  | [] => none
  | c :: rest =>
    match matchHwidAt (c :: rest) with
    | some m => some m
    | none => searchHwid rest

/-- `re.search(r"USB\\VID_[0-9A-Fa-f]{4}&PID_[0-9A-Fa-f]{4}", line)` followed
by `.group(0).upper()`. -/
def findHwidMatch (line : String) : Option String :=
  (searchHwid line.data).map (fun m => String.mk (m.map Char.toUpper))

/-- Match `VID_([0-9A-F]{4})` anchored at the front of the input, returning
the captured group. -/
def matchVidAt (cs : List Char) : Option (List Char) :=
  (takeLit "VID_".data cs).bind (fun r =>
    (takeHex4 isUpperHexCh r).map (fun p => p.1))

/-- `re.search(r"VID_([0-9A-F]{4})", hwid)` with `.group(1)`: leftmost
position where the pattern matches, scanning left to right. -/
def searchVid : List Char → Option (List Char)
  | [] => none
  | c :: rest =>
    match matchVidAt (c :: rest) with
    | some m => some m
    | none => searchVid rest

/-- Extract the vendor-ID field of a hardware-ID string. -/
def extractVid (s : String) : Option String :=
  (searchVid s.data).map String.mk

/-- One block of `devcon hwids` output: instance identifier, display name and
the hardware-ID strings collected for it. -/
structure HwidDevice where
  id : String
  name : String
  hwids : List String
deriving DecidableEq, Repr

/-- The line loop of `parse_devcon_hwids`: a blank line flushes the current
block; an unindented line containing a colon starts a new block (replacing
any unflushed one, as the Python does); any other line contributes its
hardware-ID match, if any, to the current block. -/
def parseHwidsGo : List String → Option HwidDevice → List HwidDevice
  | [], none => []
  | [], some cur => [cur]
  | line :: rest, cur =>
    if strTrim line = "" then
      match cur with
      | some c => c :: parseHwidsGo rest none
      | none => parseHwidsGo rest none
    else
      match (if strStartsWith line " " then none else splitFirstColon line) with
      | some p =>
        parseHwidsGo rest (some (HwidDevice.mk (strTrim p.1) (strTrim p.2) []))
      | none =>
        match cur with
        | some c =>
          match findHwidMatch line with
          | some m =>
            parseHwidsGo rest (some (HwidDevice.mk c.id c.name (c.hwids ++ [m])))
          | none => parseHwidsGo rest cur
        | none => parseHwidsGo rest none

/-- `parse_devcon_hwids(output)`. -/
def parse_devcon_hwids (outputLines : List String) : List HwidDevice :=
  parseHwidsGo outputLines none

/-- Oracle for one `find_devcon_device` call: exit code and output lines of
the `devcon findall =usb` and `devcon hwids =usb` executions. -/
structure DevconEnv where
  findallCode : Int
  findallLines : List String
  hwidsCode : Int
  hwidsLines : List String
deriving DecidableEq, Repr

/-- Stage one of `find_devcon_device`: first findall entry whose display name
contains `ANDROID_DEVICE_NAME` case-insensitively. -/
def nameStage (outputLines : List String) : Option String :=
  (parse_devcon_findall outputLines).findSome? (fun dev =>
    if strContainsSub (lowerStr dev.2) (lowerStr ANDROID_DEVICE_NAME)
    then some dev.1 else none)

/-- Stage two of `find_devcon_device`: first hwids block one of whose
hardware IDs carries a vendor ID from `COMMON_ANDROID_VIDS`. -/
def vidStage (outputLines : List String) : Option String :=
  (parse_devcon_hwids outputLines).findSome? (fun dev =>
    dev.hwids.findSome? (fun hwid =>
      match extractVid hwid with
      | some vid => if vid ∈ COMMON_ANDROID_VIDS then some dev.id else none
      | none => none))

/-- `find_devcon_device(devcon_path)`: name matching runs only when findall
exited 0 and wins if it matches; otherwise a failed hwids listing yields
`none`, else vendor-ID matching decides. -/
def find_devcon_device (env : DevconEnv) : Option String :=
  match (if env.findallCode = 0 then nameStage env.findallLines else none) with
  | some iid => some iid
  | none =>
    if env.hwidsCode ≠ 0 then none
    else vidStage env.hwidsLines

/-! ### Command runner -/

/-- How the operating system resolves one `subprocess.run` call: the child
completed (with some exit code and output), it overran the given timeout, or
the launch itself failed at the OS level (e.g. `FileNotFoundError` for a
missing executable). -/
inductive LaunchOutcome where
  | completed (res : CompletedProcess)
  | timedOut
  | osError
deriving DecidableEq, Repr

/-- What `run_command` does with a call, seen from its caller: return the
completed result, raise the script's structured `CommandError`, or let an
exception escape uncaught. -/
inductive RunOutcome where
  | ok (res : CompletedProcess)
  | commandError
  | uncaught
deriving DecidableEq, Repr

/-- `run_command(command, timeout)`: a completed child is returned as-is
(non-zero exit included), `subprocess.TimeoutExpired` is re-raised as the
structured `CommandError`, and nothing else is caught, so an OS-level launch
failure propagates as an uncaught exception. -/
def run_command : LaunchOutcome → RunOutcome
  | LaunchOutcome.completed res => RunOutcome.ok res
  | LaunchOutcome.timedOut => RunOutcome.commandError
  | LaunchOutcome.osError => RunOutcome.uncaught

/-! ### Bounded polling -/

/-- Result of one `poll_until_healthy` call: its boolean return value, the
results of the probes it performed in order, the index of the next unconsumed
probe of the probe stream, and the clock value when it returned. -/
structure PollResult where
  healthy : Bool
  probes : List Bool
  nextIdx : Nat
  endTime : Int
deriving DecidableEq, Repr

/-- The `while time.time() < deadline` loop of `poll_until_healthy`, with the
clock explicit: `health` is the stream of probe outcomes, `dur n` the time
the `n`-th probe takes, and each unhealthy iteration sleeps 2 seconds. The
structural fuel is an upper bound on the iteration count; `pollLoop_stable`
below shows any sufficient fuel gives the same result. -/
def pollLoop (health : Nat → Bool) (dur : Nat → Nat) :
    Nat → Nat → Int → Int → PollResult
  | 0, idx, t, _ => PollResult.mk false [] idx t
  | Nat.succ fuel, idx, t, deadline =>
    if t < deadline then
      if health idx then PollResult.mk true [true] (idx + 1) (t + (dur idx : Int))
      else
        let r := pollLoop health dur fuel (idx + 1) (t + (dur idx : Int) + 2) deadline
        PollResult.mk r.healthy (false :: r.probes) r.nextIdx r.endTime
    else PollResult.mk false [] idx t

/-- `poll_until_healthy(adb_path, serial, timeout)` entered at clock value
`now`, consuming the probe stream from index `idx`: the deadline is
`now + timeout` and `timeout.toNat` bounds the iteration count (each
iteration advances the clock by at least the 2-second sleep). -/
def poll_until_healthy (health : Nat → Bool) (dur : Nat → Nat) (idx : Nat)
    (now timeout : Int) : PollResult :=
  pollLoop health dur timeout.toNat idx now (now + timeout)

/-! ### The orchestrator `main` -/

/-- One externally visible operation of the orchestrator: a health probe with
its result, a soft reset, a device-location attempt with its result, or a
hard reset with its result. -/
inductive Event where
  | probe (healthy : Bool)
  | soft
  | locate (found : Option String)
  | hard (ok : Bool)
deriving DecidableEq, Repr

/-- Oracle environment for one run of `main`: the privilege-gate result, the
two executable resolutions, the configuration, the stream of `adb devices`
results (one per `is_adb_healthy` call, indexed by call count) with each
probe's duration, the clock values at entry of the two polling phases, and
the devcon oracles. -/
structure MainEnv where
  isAdmin : Bool
  adbResolved : Bool
  devconResolved : Bool
  serial : Option String
  dryRun : Bool
  timeout : Int
  adbDevices : Nat → CompletedProcess
  probeDur : Nat → Nat
  pollStart1 : Int
  pollStart2 : Int
  devcon : DevconEnv
  hard : HardEnv

/-- The outcome of the `n`-th `is_adb_healthy` call of a run. -/
def healthStream (env : MainEnv) (n : Nat) : Bool :=
  is_adb_healthy (env.adbDevices n) env.serial

/-- The first polling phase of a run (after the first soft reset). -/
def pollPhase1 (env : MainEnv) : PollResult :=
  poll_until_healthy (healthStream env) env.probeDur 1 env.pollStart1 env.timeout

/-- The second polling phase of a run (after hard reset and second soft
reset); it consumes the probe stream where the first phase stopped. -/
def pollPhase2 (env : MainEnv) : PollResult :=
  poll_until_healthy (healthStream env) env.probeDur (pollPhase1 env).nextIdx
    env.pollStart2 env.timeout

/-- `main()`: privilege gate, executable resolution, then the escalation
sequence probe → soft reset + poll → locate → hard reset → soft reset + poll.
Returns the exit code and the trace of visible operations in order. -/
def mainRun (env : MainEnv) : Nat × List Event :=
  if !env.isAdmin then (3, [])
  else if !env.adbResolved then (2, [])
  else if !env.devconResolved then (2, [])
  else if healthStream env 0 then (0, [Event.probe true])
  else
    let p1 := pollPhase1 env
    let tr1 := Event.probe false :: Event.soft :: p1.probes.map Event.probe
    if p1.healthy then (0, tr1)
    else
      match find_devcon_device env.devcon with
      | none => (1, tr1 ++ [Event.locate none])
      | some iid =>
        let hr := hard_reset env.dryRun env.hard
        if !hr.ok then (1, tr1 ++ [Event.locate (some iid), Event.hard false])
        else
          let p2 := pollPhase2 env
          let tr2 := (tr1 ++ [Event.locate (some iid), Event.hard true, Event.soft])
            ++ p2.probes.map Event.probe
          if p2.healthy then (0, tr2) else (1, tr2)

/-- The terminal outcomes of §3 of the specification. -/
inductive RecoveryOutcome where
  | alreadyHealthy
  | recoveredBySoftReset
  | recoveredByHardReset
  | deviceNotFound
  | hardResetFailed
  | timedOut
deriving DecidableEq, Repr

/-- Modelled from the spec: the §4.6 recovery state machine's terminal
outcome for a run (`none` when an environment precondition — privilege or
tool resolution — fails before the core runs). -/
def recoveryOutcome (env : MainEnv) : Option RecoveryOutcome :=
  if !env.isAdmin then none
  else if !env.adbResolved then none
  else if !env.devconResolved then none
  else if healthStream env 0 then some RecoveryOutcome.alreadyHealthy
  else if (pollPhase1 env).healthy then some RecoveryOutcome.recoveredBySoftReset
  else
    match find_devcon_device env.devcon with
    | none => some RecoveryOutcome.deviceNotFound
    | some _ =>
      if !(hard_reset env.dryRun env.hard).ok then
        some RecoveryOutcome.hardResetFailed
      else if (pollPhase2 env).healthy then
        some RecoveryOutcome.recoveredByHardReset
      else some RecoveryOutcome.timedOut

/-! ### Helper lemmas -/

/-- A string built from a non-empty character list is not the empty string. -/
lemma strMk_ne_empty (cs : List Char) (h : cs ≠ []) : String.mk cs ≠ "" := by
  intro hc
  exact h (by simpa using congrArg String.data hc)

/-- Every token the whitespace tokenizer emits is non-empty. -/
lemma splitWsAux_ne_nil :
    ∀ cs cur tok, tok ∈ splitWsAux cs cur → tok ≠ [] := by
  intro cs
  induction cs with
  | nil =>
    intro cur tok htok
    simp only [splitWsAux] at htok
    split at htok
    · simp at htok
    · rename_i hcur
      rw [List.mem_singleton] at htok
      subst htok
      intro hnil
      have hcur0 : cur = [] := by simpa using congrArg List.reverse hnil
      simp [hcur0] at hcur
  | cons c rest ih =>
    intro cur tok htok
    simp only [splitWsAux] at htok
    split at htok
    · split at htok
      · exact ih [] tok htok
      · rename_i hcur
        rcases List.mem_cons.mp htok with rfl | hmem
        · intro hnil
          have hcur0 : cur = [] := by simpa using congrArg List.reverse hnil
          simp [hcur0] at hcur
        · exact ih [] tok hmem
    · exact ih (c :: cur) tok htok

/-- Every token of `splitWs` is a non-empty string. -/
lemma splitWs_ne_empty (line : String) (tok : String) (h : tok ∈ splitWs line) :
    tok ≠ "" := by
  simp only [splitWs, List.mem_map] at h
  obtain ⟨cs, hcs, rfl⟩ := h
  exact strMk_ne_empty cs (splitWsAux_ne_nil line.data [] cs hcs)

/-- Any state token `parse_adb_devices`'s scanning loop returns is a second
whitespace token of some line, hence non-empty. -/
lemma parseAdbGo_ne_empty (serial : Option String) :
    ∀ lines st, parseAdbGo serial lines = some st → st ≠ "" := by
  intro lines
  induction lines with
  | nil => intro st h; simp [parseAdbGo] at h
  | cons line rest ih =>
    intro st h
    simp only [parseAdbGo] at h
    split at h
    · exact ih st h
    · split at h
      · rename_i p0 p1 ps heq
        split at h
        · exact ih st h
        · simp only [Option.some.injEq] at h
          rw [← h]
          exact splitWs_ne_empty line p1 (by rw [heq]; simp)
      · exact ih st h

/-- The state token `parse_adb_devices` selects is non-empty. -/
lemma parse_adb_devices_ne_empty (outputLines : List String)
    (serial : Option String) (st : String)
    (h : parse_adb_devices outputLines serial = some st) : st ≠ "" :=
  parseAdbGo_ne_empty serial _ st h

/-- The poll loop returns at once, with no probe and no sleep, when the
deadline already passed, whatever the fuel. -/
lemma pollLoop_no_time (health : Nat → Bool) (dur : Nat → Nat) :
    ∀ fuel idx (t deadline : Int), ¬t < deadline →
      pollLoop health dur fuel idx t deadline = PollResult.mk false [] idx t := by
  intro fuel idx t deadline h
  cases fuel with
  | zero => rfl
  | succ fuel => simp [pollLoop, h]

/-- The poll loop's result does not depend on the fuel, provided the fuel
bounds half the remaining time (each iteration advances the clock by at
least 2): the fuel-based definition computes the `while` loop. -/
lemma pollLoop_stable (health : Nat → Bool) (dur : Nat → Nat) :
    ∀ (f g idx : Nat) (t deadline : Int), deadline - t ≤ 2 * (f : Int) →
      deadline - t ≤ 2 * (g : Int) →
      pollLoop health dur f idx t deadline = pollLoop health dur g idx t deadline := by
  intro f
  induction f with
  | zero =>
    intro g idx t deadline hf _
    have hlt : ¬t < deadline := by omega
    rw [pollLoop_no_time health dur 0 idx t deadline hlt,
      pollLoop_no_time health dur g idx t deadline hlt]
  | succ f ih =>
    intro g idx t deadline hf hg
    by_cases hlt : t < deadline
    · cases g with
      | zero => omega
      | succ g =>
        have hdur : (0 : Int) ≤ (dur idx : Int) := Int.natCast_nonneg _
        simp only [pollLoop, hlt, if_true]
        cases hh : health idx with
        | true => rfl
        | false =>
          rw [ih g (idx + 1) (t + (dur idx : Int) + 2) deadline (by omega) (by omega)]
    · rw [pollLoop_no_time health dur (f + 1) idx t deadline hlt,
        pollLoop_no_time health dur g idx t deadline hlt]

/-- `poll_until_healthy`'s fuel `timeout.toNat` is adequate: any other
sufficient fuel computes the same result. -/
lemma poll_until_healthy_stable (health : Nat → Bool) (dur : Nat → Nat)
    (idx : Nat) (now timeout : Int) (fuel : Nat)
    (hfuel : timeout ≤ 2 * (fuel : Int)) :
    pollLoop health dur fuel idx now (now + timeout) =
      poll_until_healthy health dur idx now timeout := by
  unfold poll_until_healthy
  exact pollLoop_stable health dur fuel timeout.toNat idx now (now + timeout)
    (by omega) (by omega)

/-- When the poll loop reports healthy, its probe list is a run of failures
followed by a final healthy probe. -/
lemma pollLoop_healthy_concat (health : Nat → Bool) (dur : Nat → Nat) :
    ∀ fuel idx (t deadline : Int),
      (pollLoop health dur fuel idx t deadline).healthy = true →
      ∃ l, (pollLoop health dur fuel idx t deadline).probes = l ++ [true] ∧
        ∀ b ∈ l, b = false := by
  intro fuel
  induction fuel with
  | zero => intro idx t deadline h; simp [pollLoop] at h
  | succ fuel ih =>
    intro idx t deadline h
    by_cases hlt : t < deadline
    · simp only [pollLoop, hlt, if_true] at h ⊢
      cases hh : health idx with
      | true => exact ⟨[], by simp [hh], by simp⟩
      | false =>
        simp only [hh, if_false, Bool.false_eq_true] at h ⊢
        obtain ⟨l, hl, hlf⟩ := ih (idx + 1) (t + (dur idx : Int) + 2) deadline h
        exact ⟨false :: l, by simp [hl], by simpa using hlf⟩
    · rw [pollLoop_no_time health dur (fuel + 1) idx t deadline hlt] at h
      simp at h

/-- When the poll loop reports unhealthy, every probe it performed reported
unhealthy. -/
lemma pollLoop_false_probes (health : Nat → Bool) (dur : Nat → Nat) :
    ∀ fuel idx (t deadline : Int),
      (pollLoop health dur fuel idx t deadline).healthy = false →
      ∀ b ∈ (pollLoop health dur fuel idx t deadline).probes, b = false := by
  intro fuel
  induction fuel with
  | zero => intro idx t deadline _ b hb; simp [pollLoop] at hb
  | succ fuel ih =>
    intro idx t deadline h b hb
    by_cases hlt : t < deadline
    · simp only [pollLoop, hlt, if_true] at h hb
      cases hh : health idx with
      | true => simp [hh] at h
      | false =>
        simp only [hh, if_false, Bool.false_eq_true, List.mem_cons] at h hb
        rcases hb with rfl | hb
        · rfl
        · exact ih (idx + 1) (t + (dur idx : Int) + 2) deadline h b hb
    · rw [pollLoop_no_time health dur (fuel + 1) idx t deadline hlt] at hb
      simp at hb

/-- First polling phase, healthy case: failures then a final healthy probe. -/
lemma pollPhase1_healthy_concat (env : MainEnv)
    (h : (pollPhase1 env).healthy = true) :
    ∃ l, (pollPhase1 env).probes = l ++ [true] ∧ ∀ b ∈ l, b = false :=
  pollLoop_healthy_concat (healthStream env) env.probeDur _ _ _ _ h

/-- Second polling phase, healthy case: failures then a final healthy probe. -/
lemma pollPhase2_healthy_concat (env : MainEnv)
    (h : (pollPhase2 env).healthy = true) :
    ∃ l, (pollPhase2 env).probes = l ++ [true] ∧ ∀ b ∈ l, b = false :=
  pollLoop_healthy_concat (healthStream env) env.probeDur _ _ _ _ h

/-- First polling phase, unhealthy case: every probe reported unhealthy. -/
lemma pollPhase1_false_probes (env : MainEnv)
    (h : (pollPhase1 env).healthy = false) :
    ∀ b ∈ (pollPhase1 env).probes, b = false :=
  pollLoop_false_probes (healthStream env) env.probeDur _ _ _ _ h

/-! ### Claim theorems -/

/-- Claim C1: for every device-listing output and optional serial filter,
when the listing command succeeded and a record is selected, the probe
classifies it as healthy exactly when its state token is `"device"`; the
selected token is always non-empty, and any other token is classified
unhealthy, never healthy. -/
theorem adb_probe_healthy_iff_device_token (res : CompletedProcess)
    (serial : Option String) (st : String) (hrc : res.returncode = 0)
    (hparse : parse_adb_devices res.stdoutLines serial = some st) :
    (is_adb_healthy res serial = true ↔ st = ADB_HEALTHY_STATE) ∧ st ≠ "" := by
  constructor
  · simp [is_adb_healthy, hrc, hparse]
  · exact parse_adb_devices_ne_empty res.stdoutLines serial st hparse

/-- Witness for C1 at a concrete listing: an `unauthorized` record is a
non-empty token classified healthy only if it equals the healthy token. -/
theorem adb_probe_healthy_iff_device_token_witness :
    (is_adb_healthy
        (CompletedProcess.mk 0 ["List of devices attached", "SER1 unauthorized"] "")
        none = true ↔ "unauthorized" = ADB_HEALTHY_STATE) ∧
      ("unauthorized" : String) ≠ "" :=
  adb_probe_healthy_iff_device_token
    (CompletedProcess.mk 0 ["List of devices attached", "SER1 unauthorized"] "")
    none "unauthorized" (by decide) (by decide)

/-- Claim C5: when the findall enumeration succeeded and some entry's display
name contains the fixed device-class name, the locator returns that
name-matched entry's identifier, whatever entry a vendor-ID match of the
hardware-ID listing would select: name matching is stage one and wins. -/
theorem find_device_name_match_wins (env : DevconEnv) (iid iid2 : String)
    (hcode : env.findallCode = 0)
    (hname : nameStage env.findallLines = some iid)
    (hvid : vidStage env.hwidsLines = some iid2) :
    find_devcon_device env = some iid := by
  simp [find_devcon_device, hcode, hname]

/-- Witness for C5: one entry name-matches, a different entry vendor-ID
matches, and the name-matched identifier is returned. -/
theorem find_device_name_match_wins_witness :
    find_devcon_device
        (DevconEnv.mk 0 ["USB\\AAA\\1: Android Composite ADB Interface"] 0
          ["USB\\BBB\\2: Some Phone", "    USB\\VID_18D1&PID_0001"]) =
      some "USB\\AAA\\1" :=
  find_device_name_match_wins
    (DevconEnv.mk 0 ["USB\\AAA\\1: Android Composite ADB Interface"] 0
      ["USB\\BBB\\2: Some Phone", "    USB\\VID_18D1&PID_0001"])
    "USB\\AAA\\1" "USB\\BBB\\2" (by decide) (by decide) (by decide)

/-- Claim C6: outside dry-run mode, a non-zero disable exit makes hard reset
report failure with the enable command never issued. -/
theorem hard_reset_disable_fail_no_enable (env : HardEnv)
    (h : env.disableCode ≠ 0) :
    hard_reset false env = HardResult.mk false 1 0 := by
  simp [hard_reset, h]

/-- Witness for C6 at a concrete failing disable exit code. -/
theorem hard_reset_disable_fail_no_enable_witness :
    hard_reset false (HardEnv.mk 5 0) = HardResult.mk false 1 0 :=
  hard_reset_disable_fail_no_enable (HardEnv.mk 5 0) (by decide)

/-- Claim C7: for every assignment of exit codes to the child commands, soft
reset issues exactly the three bridge lifecycle commands, in the fixed
order stop-server (`kill-server`), `start-server`, `reconnect`; no exit code
prevents the remaining commands from being issued. -/
theorem soft_reset_issues_all_three (run : List String → Int) :
    (soft_reset run).map Prod.fst = ADB_SOFT_RESET_COMMANDS ∧
      (soft_reset run).length = 3 ∧
      ADB_SOFT_RESET_COMMANDS = [["kill-server"], ["start-server"], ["reconnect"]] := by
  refine ⟨?_, ?_, rfl⟩ <;> simp [soft_reset, ADB_SOFT_RESET_COMMANDS]

/-- Counterexample to claim C8: on an OS-level launch failure (such as a
missing executable) `run_command` does not produce its structured error —
the exception escapes uncaught, contradicting the claimed `LaunchFailure`
signalling. -/
theorem run_command_launch_failure_counterexample :
    run_command LaunchOutcome.osError = RunOutcome.uncaught ∧
      run_command LaunchOutcome.osError ≠ RunOutcome.commandError := by
  exact ⟨rfl, by decide⟩

/-- Claim C8 as amended: `run_command` converts only a timeout into the
structured `CommandError`; a completed child is returned whatever its exit
code, and an OS-level launch failure propagates as an uncaught exception. -/
theorem run_command_classification :
    run_command LaunchOutcome.osError = RunOutcome.uncaught ∧
      run_command LaunchOutcome.timedOut = RunOutcome.commandError ∧
      ∀ res, run_command (LaunchOutcome.completed res) = RunOutcome.ok res :=
  ⟨rfl, rfl, fun _ => rfl⟩

/-- Claim C9: when the findall command exits non-zero, the locator skips name
matching (its result is independent of the findall output) and proceeds to
vendor-ID matching on the hardware-ID listing; if that listing also exits
non-zero, the locator returns not-found instead of raising. -/
theorem find_device_findall_fail_falls_through (env : DevconEnv)
    (h : env.findallCode ≠ 0) :
    find_devcon_device env =
        (if env.hwidsCode = 0 then vidStage env.hwidsLines else none) ∧
      (∀ ls, find_devcon_device
          (DevconEnv.mk env.findallCode ls env.hwidsCode env.hwidsLines) =
        find_devcon_device env) ∧
      (env.hwidsCode ≠ 0 → find_devcon_device env = none) := by
  refine ⟨?_, ?_, ?_⟩
  · by_cases hw : env.hwidsCode = 0 <;> simp [find_devcon_device, h, hw]
  · intro ls
    by_cases hw : env.hwidsCode = 0 <;> simp [find_devcon_device, h, hw]
  · intro hw
    simp [find_devcon_device, h, hw]

/-- Witness for C9: findall failed, yet the vendor-ID stage still locates the
device from the hardware-ID listing. -/
theorem find_device_findall_fail_falls_through_witness :
    find_devcon_device
        (DevconEnv.mk 1 ["USB\\AAA\\1: Android Composite ADB Interface"] 0
          ["USB\\BBB\\2: Some Phone", "    USB\\VID_18D1&PID_0001"]) =
      (if (0 : Int) = 0 then
        vidStage ["USB\\BBB\\2: Some Phone", "    USB\\VID_18D1&PID_0001"]
      else none) :=
  (find_device_findall_fail_falls_through
    (DevconEnv.mk 1 ["USB\\AAA\\1: Android Composite ADB Interface"] 0
      ["USB\\BBB\\2: Some Phone", "    USB\\VID_18D1&PID_0001"])
    (by decide)).1

/-- Claim C10: a non-positive timeout makes the polling operation return
failure at once — no probe is consumed and the clock does not advance (no
sleep) — whatever fuel the loop is given; consequently the orchestrator's
trace then contains at most its initial probe. -/
theorem poll_nonpositive_timeout_no_probe :
    (∀ (health : Nat → Bool) (dur : Nat → Nat) (idx : Nat) (now timeout : Int),
      timeout ≤ 0 →
        poll_until_healthy health dur idx now timeout =
            PollResult.mk false [] idx now ∧
          ∀ fuel, pollLoop health dur fuel idx now (now + timeout) =
            PollResult.mk false [] idx now) ∧
    ∀ env : MainEnv, env.timeout ≤ 0 →
      ((mainRun env).2.countP (fun e =>
        match e with
        | Event.probe _ => true
        | _ => false)) ≤ 1 := by
  have key : ∀ (health : Nat → Bool) (dur : Nat → Nat) (idx : Nat)
      (now timeout : Int), timeout ≤ 0 → ∀ fuel,
      pollLoop health dur fuel idx now (now + timeout) =
        PollResult.mk false [] idx now := by
    intro health dur idx now timeout ht fuel
    exact pollLoop_no_time health dur fuel idx now (now + timeout) (by omega)
  constructor
  · intro health dur idx now timeout ht
    exact ⟨key health dur idx now timeout ht _, key health dur idx now timeout ht⟩
  · intro env ht
    have hp1 : pollPhase1 env = PollResult.mk false [] 1 env.pollStart1 :=
      key (healthStream env) env.probeDur 1 env.pollStart1 env.timeout ht _
    have hp2 : pollPhase2 env =
        PollResult.mk false [] (pollPhase1 env).nextIdx env.pollStart2 :=
      key (healthStream env) env.probeDur (pollPhase1 env).nextIdx
        env.pollStart2 env.timeout ht _
    cases hA : env.isAdmin with
    | false => simp [mainRun, hA]
    | true =>
      cases hB : env.adbResolved with
      | false => simp [mainRun, hA, hB]
      | true =>
        cases hC : env.devconResolved with
        | false => simp [mainRun, hA, hB, hC]
        | true =>
          cases h0 : healthStream env 0 with
          | true => simp [mainRun, hA, hB, hC, h0]
          | false =>
            cases hloc : find_devcon_device env.devcon with
            | none => simp [mainRun, hA, hB, hC, h0, hp1, hloc]
            | some iid =>
              cases hhr : (hard_reset env.dryRun env.hard).ok with
              | false => simp [mainRun, hA, hB, hC, h0, hp1, hloc, hhr]
              | true => simp [mainRun, hA, hB, hC, h0, hp1, hp2, hloc, hhr]

/-- Witness for C10 at a concrete negative timeout. -/
theorem poll_nonpositive_timeout_no_probe_witness :
    poll_until_healthy (fun _ => true) (fun _ => 0) 4 100 (-3) =
        PollResult.mk false [] 4 100 ∧
      ∀ fuel, pollLoop (fun _ => true) (fun _ => 0) fuel 4 100 (100 + (-3)) =
        PollResult.mk false [] 4 100 :=
  poll_nonpositive_timeout_no_probe.1 (fun _ => true) (fun _ => 0) 4 100 (-3)
    (by decide)

/-- Claim C2: the orchestrator returns exit code 0 only when the very last
operation of its trace is a health probe that reported healthy — success is
never based on a stale or assumed device state. -/
theorem main_success_needs_fresh_healthy_probe (env : MainEnv)
    (h : (mainRun env).1 = 0) :
    ∃ pre, (mainRun env).2 = pre ++ [Event.probe true] := by
  cases hA : env.isAdmin with
  | false => simp [mainRun, hA] at h
  | true =>
  cases hB : env.adbResolved with
  | false => simp [mainRun, hA, hB] at h
  | true =>
  cases hC : env.devconResolved with
  | false => simp [mainRun, hA, hB, hC] at h
  | true =>
  cases h0 : healthStream env 0 with
  | true => exact ⟨[], by simp [mainRun, hA, hB, hC, h0]⟩
  | false =>
  cases hp1 : (pollPhase1 env).healthy with
  | true =>
    obtain ⟨l, hl, _⟩ := pollPhase1_healthy_concat env hp1
    refine ⟨Event.probe false :: Event.soft :: l.map Event.probe, ?_⟩
    simp [mainRun, hA, hB, hC, h0, hp1, hl]
  | false =>
  cases hloc : find_devcon_device env.devcon with
  | none => simp [mainRun, hA, hB, hC, h0, hp1, hloc] at h
  | some iid =>
  cases hhr : (hard_reset env.dryRun env.hard).ok with
  | false => simp [mainRun, hA, hB, hC, h0, hp1, hloc, hhr] at h
  | true =>
  cases hp2 : (pollPhase2 env).healthy with
  | false => simp [mainRun, hA, hB, hC, h0, hp1, hloc, hhr, hp2] at h
  | true =>
    obtain ⟨l, hl, _⟩ := pollPhase2_healthy_concat env hp2
    refine ⟨(Event.probe false :: Event.soft ::
      (pollPhase1 env).probes.map Event.probe ++
        [Event.locate (some iid), Event.hard true, Event.soft]) ++
        l.map Event.probe, ?_⟩
    simp [mainRun, hA, hB, hC, h0, hp1, hloc, hhr, hp2, hl]

/-- Witness for C2: a first probe reporting healthy yields exit 0, and the
trace indeed ends with that healthy probe. -/
theorem main_success_needs_fresh_healthy_probe_witness :
    ∃ pre, (mainRun (MainEnv.mk true true true none false 30
        (fun _ => CompletedProcess.mk 0
          ["List of devices attached", "SER1 device"] "")
        (fun _ => 0) 0 0 (DevconEnv.mk 0 [] 0 []) (HardEnv.mk 0 0))).2 =
      pre ++ [Event.probe true] :=
  main_success_needs_fresh_healthy_probe
    (MainEnv.mk true true true none false 30
      (fun _ => CompletedProcess.mk 0
        ["List of devices attached", "SER1 device"] "")
      (fun _ => 0) 0 0 (DevconEnv.mk 0 [] 0 []) (HardEnv.mk 0 0))
    (by decide)

/-- Claim C3: a hard-reset operation appears in a run's trace only strictly
after a soft reset, with the polling phase that followed that soft reset
having exhausted its timeout without observing a healthy probe; hard reset
is never the first remediation. -/
theorem main_hard_reset_only_after_soft_and_timeout (env : MainEnv) (b : Bool)
    (h : Event.hard b ∈ (mainRun env).2) :
    ∃ iid rest,
      (mainRun env).2 = Event.probe false :: Event.soft ::
          ((pollPhase1 env).probes.map Event.probe ++
            Event.locate (some iid) :: Event.hard b :: rest) ∧
        (pollPhase1 env).healthy = false ∧
        ∀ x ∈ (pollPhase1 env).probes, x = false := by
  cases hA : env.isAdmin with
  | false => simp [mainRun, hA] at h
  | true =>
  cases hB : env.adbResolved with
  | false => simp [mainRun, hA, hB] at h
  | true =>
  cases hC : env.devconResolved with
  | false => simp [mainRun, hA, hB, hC] at h
  | true =>
  cases h0 : healthStream env 0 with
  | true => simp [mainRun, hA, hB, hC, h0] at h
  | false =>
  cases hp1 : (pollPhase1 env).healthy with
  | true => simp [mainRun, hA, hB, hC, h0, hp1] at h
  | false =>
  cases hloc : find_devcon_device env.devcon with
  | none => simp [mainRun, hA, hB, hC, h0, hp1, hloc] at h
  | some iid =>
  cases hhr : (hard_reset env.dryRun env.hard).ok with
  | false =>
    have hb : b = false := by
      simpa [mainRun, hA, hB, hC, h0, hp1, hloc, hhr] using h
    subst hb
    refine ⟨iid, [], ?_, rfl, pollPhase1_false_probes env hp1⟩
    simp [mainRun, hA, hB, hC, h0, hp1, hloc, hhr]
  | true =>
    have hb : b = true := by
      cases hp2 : (pollPhase2 env).healthy with
      | true => simpa [mainRun, hA, hB, hC, h0, hp1, hloc, hhr, hp2] using h
      | false => simpa [mainRun, hA, hB, hC, h0, hp1, hloc, hhr, hp2] using h
    subst hb
    refine ⟨iid, Event.soft :: (pollPhase2 env).probes.map Event.probe, ?_,
      rfl, pollPhase1_false_probes env hp1⟩
    cases hp2 : (pollPhase2 env).healthy with
    | true => simp [mainRun, hA, hB, hC, h0, hp1, hloc, hhr, hp2]
    | false => simp [mainRun, hA, hB, hC, h0, hp1, hloc, hhr, hp2]

/-- Witness for C3: a run that reaches hard reset (always-unhealthy probes,
zero timeout, findall locates the device, both devcon commands succeed), with
the trace in the stated soft-before-hard shape. -/
theorem main_hard_reset_only_after_soft_and_timeout_witness :
    ∃ iid rest,
      (mainRun (MainEnv.mk true true true none false 0
          (fun _ => CompletedProcess.mk 1 [] "") (fun _ => 0) 5 9
          (DevconEnv.mk 0 ["USB\\AAA\\1: Android Composite ADB Interface"] 1 [])
          (HardEnv.mk 0 0))).2 =
        Event.probe false :: Event.soft ::
          ((pollPhase1 (MainEnv.mk true true true none false 0
              (fun _ => CompletedProcess.mk 1 [] "") (fun _ => 0) 5 9
              (DevconEnv.mk 0 ["USB\\AAA\\1: Android Composite ADB Interface"] 1 [])
              (HardEnv.mk 0 0))).probes.map Event.probe ++
            Event.locate (some iid) :: Event.hard true :: rest) ∧
        (pollPhase1 (MainEnv.mk true true true none false 0
            (fun _ => CompletedProcess.mk 1 [] "") (fun _ => 0) 5 9
            (DevconEnv.mk 0 ["USB\\AAA\\1: Android Composite ADB Interface"] 1 [])
            (HardEnv.mk 0 0))).healthy = false ∧
        ∀ x ∈ (pollPhase1 (MainEnv.mk true true true none false 0
            (fun _ => CompletedProcess.mk 1 [] "") (fun _ => 0) 5 9
            (DevconEnv.mk 0 ["USB\\AAA\\1: Android Composite ADB Interface"] 1 [])
            (HardEnv.mk 0 0))).probes, x = false :=
  main_hard_reset_only_after_soft_and_timeout
    (MainEnv.mk true true true none false 0
      (fun _ => CompletedProcess.mk 1 [] "") (fun _ => 0) 5 9
      (DevconEnv.mk 0 ["USB\\AAA\\1: Android Composite ADB Interface"] 1 [])
      (HardEnv.mk 0 0))
    true (by decide)

/-- Claim C4: the exit codes partition the runs — 3 exactly when the
privilege gate fails; 2 exactly when it passes but a tool is unresolved;
0 exactly when the spec state machine ends in a healthy-observed outcome
(already healthy, recovered by soft reset, recovered by hard reset); 1
exactly when it ends in a failed-recovery outcome (device not found, hard
reset failed, timed out); and every run produces exactly one of 0, 1, 2, 3. -/
theorem main_exit_code_partition (env : MainEnv) :
    ((mainRun env).1 = 3 ↔ env.isAdmin = false) ∧
      ((mainRun env).1 = 2 ↔ env.isAdmin = true ∧
        (env.adbResolved = false ∨ env.devconResolved = false)) ∧
      ((mainRun env).1 = 0 ↔ ∃ o, recoveryOutcome env = some o ∧
        (o = RecoveryOutcome.alreadyHealthy ∨
          o = RecoveryOutcome.recoveredBySoftReset ∨
          o = RecoveryOutcome.recoveredByHardReset)) ∧
      ((mainRun env).1 = 1 ↔ ∃ o, recoveryOutcome env = some o ∧
        (o = RecoveryOutcome.deviceNotFound ∨
          o = RecoveryOutcome.hardResetFailed ∨
          o = RecoveryOutcome.timedOut)) ∧
      ((mainRun env).1 = 0 ∨ (mainRun env).1 = 1 ∨
        (mainRun env).1 = 2 ∨ (mainRun env).1 = 3) := by
  cases hA : env.isAdmin with
  | false => simp [mainRun, recoveryOutcome, hA]
  | true =>
  cases hB : env.adbResolved with
  | false => simp [mainRun, recoveryOutcome, hA, hB]
  | true =>
  cases hC : env.devconResolved with
  | false => simp [mainRun, recoveryOutcome, hA, hB, hC]
  | true =>
  cases h0 : healthStream env 0 with
  | true => simp [mainRun, recoveryOutcome, hA, hB, hC, h0]
  | false =>
  cases hp1 : (pollPhase1 env).healthy with
  | true => simp [mainRun, recoveryOutcome, hA, hB, hC, h0, hp1]
  | false =>
  cases hloc : find_devcon_device env.devcon with
  | none => simp [mainRun, recoveryOutcome, hA, hB, hC, h0, hp1, hloc]
  | some iid =>
  cases hhr : (hard_reset env.dryRun env.hard).ok with
  | false => simp [mainRun, recoveryOutcome, hA, hB, hC, h0, hp1, hloc, hhr]
  | true =>
  cases hp2 : (pollPhase2 env).healthy with
  | true => simp [mainRun, recoveryOutcome, hA, hB, hC, h0, hp1, hloc, hhr, hp2]
  | false => simp [mainRun, recoveryOutcome, hA, hB, hC, h0, hp1, hloc, hhr, hp2]

end UsbRefresher
